import Mathlib

/-!
Verification of the acquisition state machine and persistent catalog of the
congressional-hearing tool: a shallow embedding of `cht/database.py`,
`cht/consumer.py`, `cht/helper.py` and the download subcommand of
`cht/cli.py`, followed by theorems settling the specification claims.

The SQLite `files` table is embedded as a list of rows; SQL operations become
list operations (SELECT ... fetchone = first match, UPDATE = map,
DELETE = filter, INSERT OR IGNORE = conditional append).  The filesystem is a
predicate `String → Bool` (`Path.exists`), and the network is an oracle
record `World`.
-/

/-- The `format_str` literal type of `cht/customtypes.py`. -/
inductive format_str where
  | txt
  | pdf
  | xml
deriving DecidableEq

/-- One row of the `files` table (`cht/database.py`, CREATE TABLE files):
id TEXT, format TEXT, congress (stored from an int argument), path TEXT null.
Primary key (id, format). -/
structure FileRow where
  id : String
  format : format_str
  congress : Nat
  path : Option String
deriving DecidableEq

/- ------------------------------------------------------------------ -/
/- helper.py                                                           -/
/- ------------------------------------------------------------------ -/

/-- `helper.ordinal`: ordinal suffix of an integer. -/
def ordinal (n : Nat) : String :=
  let suffix :=
    if 11 ≤ n % 100 ∧ n % 100 ≤ 13 then "th"
    else ["th", "st", "nd", "rd", "th"].getD (min (n % 10) 4) "th"
  toString n ++ suffix

/-- `helper.valid_congress`: `congress > 104 and congress < CURR_CONGRESS`.
The ambient constant `CURR_CONGRESS` becomes the parameter `curr`. -/
def valid_congress (curr congress : Nat) : Bool :=
  decide (104 < congress) && decide (congress < curr)

/-- `helper.congress_from_id`: collect the first maximal digit run of the id
and convert it with `int(...)`; `int("")` raises, embedded as `none`. -/
def congress_from_id (id : String) : Option Nat :=
  let ds := (id.data.dropWhile (fun c => !c.isDigit)).takeWhile (fun c => c.isDigit)
  if ds.isEmpty then none
  else some (ds.foldl (fun n c => n * 10 + (c.toNat - 48)) 0)

/- ------------------------------------------------------------------ -/
/- database.py                                                         -/
/- ------------------------------------------------------------------ -/

/-- The query `SELECT ... FROM files WHERE id=? AND format=?` with
`fetchone()`: the first row matching the (id, format) key. -/
def find_file : List FileRow → String → format_str → Option FileRow
  | [], _, _ => none
  | r :: rest, id, fmt =>
    if r.id = id ∧ r.format = fmt then some r else find_file rest id fmt

/-- `Database.file_status` (database.py lines 280-297): 0 when no row exists
or the row's path is null, 1 when the path exists on the filesystem `E`,
2 when it does not. -/
def file_status (E : String → Bool) (db : List FileRow) (id : String) (fmt : format_str) : Nat :=
  match find_file db id fmt with
  | none => 0
  | some r =>
    match r.path with
    | none => 0
    | some p => if E p then 1 else 2

/-- `Database.add_file`: `INSERT OR IGNORE INTO files VALUES (?, ?, ?, ?)` —
append the row unless a row with the same (id, format) primary key exists. -/
def add_file (db : List FileRow) (id : String) (fmt : format_str) (congress : Nat)
    (path : Option String) : List FileRow :=
  match find_file db id fmt with
  | some _ => db
  | none => db ++ [{ id := id, format := fmt, congress := congress, path := path }]

/-- `Database.delete_file`: `DELETE FROM files WHERE id=? AND format=?`. -/
def delete_file (db : List FileRow) (id : String) (fmt : format_str) : List FileRow :=
  db.filter (fun r => !(decide (r.id = id ∧ r.format = fmt)))

/-- `Database.update_path`: `UPDATE OR IGNORE files SET path=? WHERE id=? AND
format=?` — a no-op when no row matches. -/
def update_path (db : List FileRow) (id : String) (fmt : format_str) (path : String) :
    List FileRow :=
  db.map (fun r => if r.id = id ∧ r.format = fmt then { r with path := some path } else r)

/-- The `UPDATE files SET PATH=NULL WHERE id=? AND format=?` statement used by
`Database.refresh_paths`. -/
def clear_path (db : List FileRow) (id : String) (fmt : format_str) : List FileRow :=
  db.map (fun r => if r.id = id ∧ r.format = fmt then { r with path := none } else r)

/-- `Database.get_files_congresses`: `SELECT DISTINCT congress FROM files`
optionally restricted by format. -/
def get_files_congresses (db : List FileRow) (fmt : Option format_str) : List Nat :=
  match fmt with
  | none => (db.map (fun r => r.congress)).eraseDups
  | some f => ((db.filter (fun r => decide (r.format = f))).map (fun r => r.congress)).eraseDups

/-- `Database.get_files` (database.py lines 333-427): the nested branching on
the three optional filters, reproduced branch by branch.  Note that in the
source the `format is not None, congress is None, downloaded is None` branch
issues the unfiltered `SELECT id, format, congress, path FROM files`. -/
def get_files (db : List FileRow) (format : Option format_str) (congress : Option Nat)
    (downloaded : Option Bool) : List FileRow :=
  match format with
  | none =>
    match congress, downloaded with
    | none, none => db
    | none, some d =>
      if d then db.filter (fun r => r.path.isSome)
      else db.filter (fun r => r.path.isNone)
    | some c, none => db.filter (fun r => decide (r.congress = c))
    | some c, some d =>
      if d then db.filter (fun r => r.path.isSome && decide (r.congress = c))
      else db.filter (fun r => r.path.isNone && decide (r.congress = c))
  | some f =>
    match congress, downloaded with
    | none, none => db
    | none, some d =>
      if d then db.filter (fun r => r.path.isSome && decide (r.format = f))
      else db.filter (fun r => r.path.isNone && decide (r.format = f))
    | some c, none => db.filter (fun r => decide (r.congress = c) && decide (r.format = f))
    | some c, some d =>
      if d then db.filter (fun r => r.path.isSome && decide (r.congress = c) && decide (r.format = f))
      else db.filter (fun r => r.path.isNone && decide (r.congress = c) && decide (r.format = f))

/-- `Database.refresh_paths` (database.py lines 437-446): iterate over the
snapshot `get_files()` of all rows; for each row whose current `file_status`
is 2, clear its path back to NULL. -/
def refresh_paths (E : String → Bool) (db : List FileRow) : List FileRow :=
  (get_files db none none none).foldl
    (fun d r => if file_status E d r.id r.format = 2 then clear_path d r.id r.format else d) db

/-- The registration loop of `consumer.download_documents` lines 86-87
(the spec's `register_session_listing`): `add_file(congress_id, format,
congress, None)` for every listed id. -/
def register_session_listing (db : List FileRow) (ids : List String) (fmt : format_str)
    (congress : Nat) : List FileRow :=
  ids.foldl (fun d i => add_file d i fmt congress none) db

/- ------------------------------------------------------------------ -/
/- consumer.py                                                         -/
/- ------------------------------------------------------------------ -/

/-- One response page of the paginated listing endpoint: status code, the
`packages` id list and the `nextPage` cursor. -/
structure PageResp where
  status : Nat
  packages : List String
  nextPage : Option String

/-- The external world of a run: listing responses (initial query and cursor
pages, with `fuel` bounding the cursor chase), the redirect-resolution
response (status and final url), the content response (status and body — the
source never reads this status), and the initial filesystem. -/
structure World where
  initO : Nat → PageResp
  pageO : String → PageResp
  fuel : Nat
  redirect : String → Nat × String
  content : String → Nat × List Nat
  fs0 : String → Bool

/-- The pagination loop of `consumer.get_list` (lines 54-61): follow
`nextPage` cursors, accumulating `packageId`s; a non-200 response raises
`SystemExit` (`none`); `fuel` bounds the (in the source unbounded) loop. -/
def get_list_pages (pageO : String → PageResp) : Nat → List String → Option String →
    Option (List String)
  | _, acc, none => some acc
  | 0, _, some _ => none
  | fuel + 1, acc, some url =>
    let resp := pageO url
    if resp.status ≠ 200 then none
    else get_list_pages pageO fuel (acc ++ resp.packages) resp.nextPage

/-- `consumer.get_list` (lines 34-63): initial listing query for a congress,
then the pagination loop.  No identifier is filtered or re-validated. -/
def get_list (w : World) (congress : Nat) : Option (List String) :=
  let resp := w.initO congress
  if resp.status ≠ 200 then none
  else get_list_pages w.pageO w.fuel resp.packages resp.nextPage

/-- File extension / directory component of a format. -/
def format_ext : format_str → String
  | .txt => "txt"
  | .pdf => "pdf"
  | .xml => "xml"

/-- The `match format` of download_documents lines 98-104. -/
def link_type : format_str → String
  | .txt => "html"
  | .xml => "mods"
  | .pdf => "pdf"

/-- `jacketid = f"{id[-5:-3]}-{id[-3:]}"` with Python's clamping slice
semantics (truncated subtraction plays the role of the clamp at 0). -/
def jacket_id (id : String) : String :=
  let cs := id.data
  let n := cs.length
  String.mk ((cs.drop (n - 5)).take ((n - 3) - (n - 5))) ++ "-" ++ String.mk (cs.drop (n - 3))

/-- The content-link url of download_documents line 105. -/
def link_url (fmt : format_str) (congress : Nat) (id : String) : String :=
  "https://www.govinfo.gov/link/chrg/" ++ toString congress ++ "/" ++ jacket_id id ++
    "?link-type=" ++ link_type fmt

/-- `path = OUTPUT_PATH / format / str(congress) / f"{id}.{format}"`. -/
def dest_path (fmt : format_str) (congress : Nat) (id : String) : String :=
  "output/" ++ format_ext fmt ++ "/" ++ toString congress ++ "/" ++ id ++ "." ++ format_ext fmt

/-- Filesystem existence during a run: the initial filesystem plus the paths
written so far by this run. -/
def fs_exists (w : World) (writes : List (String × List Nat)) (p : String) : Bool :=
  w.fs0 p || writes.any (fun wr => decide (wr.1 = p))

/-- Mutable state threaded through a download run: the files table, the log of
(path, bytes) writes, and the failed-identifier list. -/
structure RunState where
  db : List FileRow
  writes : List (String × List Nat)
  failed : List String
deriving DecidableEq

/-- One iteration of the `for id in ids` loop of
`consumer.download_documents` (lines 73-118): derive the congress from the
id (`int("")` would raise: `none`), register the whole session listing if the
congress has no rows for this format yet (a listing failure raises:
`none`), then skip when status 1, set the destination path when status 0,
and fetch: a non-200 redirect-resolution response records the id as failed;
otherwise the body of the content response is written unconditionally — the
source takes `.content` of the second request without checking its status. -/
def download_step (fmt : format_str) (w : World) (st : RunState) (id : String) :
    Option RunState :=
  match congress_from_id id with
  | none => none
  | some congress =>
    match (if congress ∈ get_files_congresses st.db (some fmt) then some st.db
           else Option.map (fun l => register_session_listing st.db l fmt congress)
             (get_list w congress)) with
    | none => none
    | some db1 =>
      let status := file_status (fs_exists w st.writes) db1 id fmt
      if status = 1 then some { st with db := db1 }
      else
        let db2 := if status = 0 then update_path db1 id fmt (dest_path fmt congress id) else db1
        let resp := w.redirect (link_url fmt congress id)
        if resp.1 ≠ 200 then
          some { db := db2, writes := st.writes, failed := st.failed ++ [id] }
        else
          some { db := db2,
                 writes := st.writes ++ [(dest_path fmt congress id, (w.content resp.2).2)],
                 failed := st.failed }

/-- The whole `for id in ids` loop. -/
def download_loop (fmt : format_str) (w : World) : RunState → List String → Option RunState
  | st, [] => some st
  | st, id :: rest =>
    match download_step fmt w st id with
    | none => none
    | some st2 => download_loop fmt w st2 rest

/-- The rollback loop of download_documents lines 120-122: `delete_file` for
every failed id. -/
def rollback_failed (fmt : format_str) (st : RunState) : RunState :=
  { st with db := st.failed.foldl (fun d i => delete_file d i fmt) st.db }

/-- `consumer.download_documents` (lines 67-122) as a state transformer over
the catalog and filesystem. -/
def download_documents (ids : List String) (fmt : format_str) (w : World)
    (db0 : List FileRow) : Option RunState :=
  Option.map (rollback_failed fmt) (download_loop fmt w { db := db0, writes := [], failed := [] } ids)

/- ------------------------------------------------------------------ -/
/- cli.py — the download subcommand                                    -/
/- ------------------------------------------------------------------ -/

/-- Python's `str.isnumeric` restricted to ASCII digits. -/
def is_numeric (s : String) : Bool :=
  !s.isEmpty && s.data.all (fun c => c.isDigit)

/-- Python `int(...)` on a numeric string. -/
def str_to_int (s : String) : Nat :=
  s.data.foldl (fun n c => n * 10 + (c.toNat - 48)) 0

/-- The eager filter `list(filter(lambda x: congress_from_id(x) ==
int(selection), congress_docs))` of `cli.py` line 188.  The lambda calls
`congress_from_id` on each listed identifier; on an identifier with no digit
run that ends in `int('')`, which raises an uncaught ValueError and aborts
the whole run — embedded as `none`.  Otherwise the identifiers whose derived
congress equals the selection are kept, in order. -/
def filter_by_congress (c : Nat) : List String → Option (List String)
  | [] => some []
  | x :: rest =>
    match congress_from_id x with
    | none => none
    | some cx =>
      match filter_by_congress c rest with
      | none => none
      | some kept => some (if cx = c then x :: kept else kept)

/-- The selection-expansion loop of `cli.download` (lines 181-196), with the
congress numbers of attempted listing requests tracked in `calls`: a numeric
selection is first validated (an out-of-range congress raises `SystemExit`
before its listing call), then expanded through `get_list` and filtered by
`congress_from_id` — a listed identifier with no digit run makes that filter
raise an uncaught ValueError, aborting the run with an error after the
listing call; a non-numeric selection is appended unvalidated. -/
def expand_selections (curr : Nat) (w : World) :
    List String → List Nat → List String → List Nat × Except String (List String)
  | [], calls, acc => (calls, Except.ok acc)
  | sel :: rest, calls, acc =>
    if is_numeric sel then
      if valid_congress curr (str_to_int sel) then
        match get_list w (str_to_int sel) with
        | none => (calls ++ [str_to_int sel], Except.error "API response error")
        | some docs =>
          match filter_by_congress (str_to_int sel) docs with
          | none =>
            (calls ++ [str_to_int sel],
             Except.error "ValueError: invalid literal for int() with base 10")
          | some kept =>
            expand_selections curr w rest (calls ++ [str_to_int sel]) (acc ++ kept)
      else
        (calls, Except.error ("error: downloading from the " ++ ordinal (str_to_int sel) ++
          " Congress is not supported (valid range: 105-" ++ toString (curr - 1) ++ ")"))
    else
      expand_selections curr w rest calls (acc ++ [sel])

/-- Whether an `Except` is the error case. -/
def isError {ε α : Type} : Except ε α → Bool
  | Except.error _ => true
  | Except.ok _ => false

/-- The download subcommand for one format: expand the selections, then (only
on success) run `download_documents` on the expanded target list.  The pair
component tracks the listing calls issued during expansion. -/
def download_command (curr : Nat) (w : World) (db0 : List FileRow)
    (selections : List String) (fmt : format_str) :
    List Nat × Except String (Option RunState) :=
  match expand_selections curr w selections [] [] with
  | (calls, Except.error m) => (calls, Except.error m)
  | (calls, Except.ok targets) =>
    (calls, Except.ok (download_documents targets fmt w db0))

/- ------------------------------------------------------------------ -/
/- Concrete fixtures used by witnesses and counterexamples             -/
/- ------------------------------------------------------------------ -/

/-- A sample 105th-Congress document id. -/
def sampleId : String := "CHRG-105hhrg11111"

/-- A second sample 105th-Congress document id. -/
def sampleId2 : String := "CHRG-105hhrg22222"

/-- Cursor pages that never continue. -/
def pageOk : String → PageResp := fun _ => { status := 200, packages := [], nextPage := none }

/-- A world in which every request succeeds and the listing of any congress is
`[sampleId]`. -/
def wOne : World :=
  { initO := fun _ => { status := 200, packages := [sampleId], nextPage := none },
    pageO := pageOk, fuel := 1,
    redirect := fun _ => (200, "final"),
    content := fun _ => (200, [7]),
    fs0 := fun _ => false }

/-- Like `wOne` but the listing of any congress is `[sampleId, sampleId2]`. -/
def wTwo : World :=
  { wOne with initO := fun _ => { status := 200, packages := [sampleId, sampleId2], nextPage := none } }

/-- Like `wOne` but the redirect-resolution request fails with 500. -/
def wRedirectFail : World :=
  { wOne with redirect := fun _ => (500, "x") }

/-- Like `wOne` but the content request fails with 404 (body `[9, 9]`). -/
def wContentFail : World :=
  { wOne with content := fun _ => (404, [9, 9]) }

/-- Like `wOne` but the listing of any congress is a 106th-Congress id. -/
def wMismatch : World :=
  { wOne with initO := fun _ => { status := 200, packages := ["CHRG-106hhrg00001"], nextPage := none } }

/- ------------------------------------------------------------------ -/
/- Auxiliary definitions for the proofs                                -/
/- ------------------------------------------------------------------ -/

/-- The (id, format) primary key of a `files` row. -/
def fileKey (r : FileRow) : String × format_str := (r.id, r.format)

/-- A row is lost when it records a path that no longer exists on the
filesystem `E` (the drift state, `file_status = 2`). -/
def is_lost (E : String → Bool) (r : FileRow) : Bool :=
  match r.path with
  | none => false
  | some p => !(E p)

/-- Whether some row of `l` with the given key is lost. -/
def lost_key (E : String → Bool) (l : List FileRow) (id : String) (fmt : format_str) : Bool :=
  l.any (fun r => decide (r.id = id ∧ r.format = fmt) && is_lost E r)

/-- The row-wise normal form computed by a reconcile pass over snapshot `l`:
clear the path of every row whose key has a lost row in `l`. -/
def norm_row (E : String → Bool) (l : List FileRow) (g : FileRow) : FileRow :=
  if lost_key E l g.id g.format then { g with path := none } else g

/-- A two-row catalog used by the reconcile witness. -/
def dbDrift : List FileRow :=
  [{ id := "A", format := format_str.txt, congress := 105, path := some "gone" },
   { id := "B", format := format_str.txt, congress := 105, path := some "here" }]

/-- The filesystem in which only "here" exists. -/
def fsHere : String → Bool := fun p => decide (p = "here")

/- ------------------------------------------------------------------ -/
/- Lemmas about find_file and the row operations                       -/
/- ------------------------------------------------------------------ -/

theorem find_file_some_key {db : List FileRow} {id : String} {fmt : format_str} {r : FileRow}
    (h : find_file db id fmt = some r) : r.id = id ∧ r.format = fmt := by
  induction db with
  | nil => simp [find_file] at h
  | cons a t ih =>
    simp only [find_file] at h
    split at h
    · cases h; assumption
    · exact ih h

theorem find_file_mem {db : List FileRow} {id : String} {fmt : format_str} {r : FileRow}
    (h : find_file db id fmt = some r) : r ∈ db := by
  induction db with
  | nil => simp [find_file] at h
  | cons a t ih =>
    simp only [find_file] at h
    split at h
    · cases h; exact List.mem_cons_self _ _
    · exact List.mem_cons_of_mem _ (ih h)

theorem find_file_append_single (d : List FileRow) (r : FileRow) (x : String)
    (g : format_str) :
    find_file (d ++ [r]) x g =
      match find_file d x g with
      | some q => some q
      | none => if r.id = x ∧ r.format = g then some r else none := by
  induction d with
  | nil => simp [find_file]
  | cons a t ih =>
    simp only [List.cons_append, find_file]
    split
    · rfl
    · exact ih

theorem find_file_map_key (f : FileRow → FileRow)
    (hk : ∀ g, (f g).id = g.id ∧ (f g).format = g.format)
    (db : List FileRow) (x : String) (g : format_str) :
    find_file (db.map f) x g = Option.map f (find_file db x g) := by
  induction db with
  | nil => simp [find_file]
  | cons a t ih =>
    simp only [List.map_cons, find_file, (hk a).1, (hk a).2]
    split
    · rfl
    · exact ih

theorem find_file_update (db : List FileRow) (id : String) (fmt : format_str) (p : String)
    (x : String) (g : format_str) :
    find_file (update_path db id fmt p) x g =
      Option.map (fun r => if r.id = id ∧ r.format = fmt then { r with path := some p } else r)
        (find_file db x g) := by
  apply find_file_map_key
  intro r
  constructor
  · split <;> rfl
  · split <;> rfl

theorem find_file_clear (db : List FileRow) (id : String) (fmt : format_str)
    (x : String) (g : format_str) :
    find_file (clear_path db id fmt) x g =
      Option.map (fun r => if r.id = id ∧ r.format = fmt then { r with path := none } else r)
        (find_file db x g) := by
  apply find_file_map_key
  intro r
  constructor
  · split <;> rfl
  · split <;> rfl

theorem find_file_add_of_some {d : List FileRow} {x : String} {g : format_str} {r : FileRow}
    (h : find_file d x g = some r) (y : String) (fmt : format_str) (c : Nat)
    (p : Option String) : find_file (add_file d y fmt c p) x g = some r := by
  unfold add_file
  cases hy : find_file d y fmt with
  | some q => exact h
  | none => rw [find_file_append_single, h]

theorem find_file_register_of_some {d : List FileRow} {x : String} {g : format_str}
    {r : FileRow} (h : find_file d x g = some r) (L : List String) (fmt : format_str)
    (s : Nat) : find_file (register_session_listing d L fmt s) x g = some r := by
  induction L generalizing d with
  | nil => exact h
  | cons y t ih =>
    simp only [register_session_listing, List.foldl_cons]
    exact ih (find_file_add_of_some h y fmt s none)

theorem find_file_register_mem {L : List String} {d : List FileRow} {x : String}
    {fmt : format_str} {s : Nat} (hx : x ∈ L) (h : find_file d x fmt = none) :
    find_file (register_session_listing d L fmt s) x fmt =
      some { id := x, format := fmt, congress := s, path := none } := by
  induction L generalizing d with
  | nil => cases hx
  | cons y t ih =>
    simp only [register_session_listing, List.foldl_cons]
    by_cases hxy : x = y
    · subst hxy
      have hadd : add_file d x fmt s none = d ++ [{ id := x, format := fmt, congress := s, path := none }] := by
        unfold add_file
        rw [h]
      rw [hadd]
      apply find_file_register_of_some
      rw [find_file_append_single, h]
      simp
    · have hx2 : x ∈ t := by
        cases hx with
        | head => exact absurd rfl hxy
        | tail _ h2 => exact h2
      apply ih hx2
      unfold add_file
      cases hy : find_file d y fmt with
      | some q => exact h
      | none =>
        rw [find_file_append_single, h]
        simp [Ne.symm hxy]

theorem register_isSome {L : List String} {x : String} (hx : x ∈ L) (d : List FileRow)
    (fmt : format_str) (s : Nat) :
    (find_file (register_session_listing d L fmt s) x fmt).isSome := by
  cases h : find_file d x fmt with
  | some r => rw [find_file_register_of_some h]; rfl
  | none => rw [find_file_register_mem hx h]; rfl

theorem register_noop {L : List String} {d : List FileRow} {fmt : format_str} {s : Nat}
    (h : ∀ x ∈ L, (find_file d x fmt).isSome) :
    register_session_listing d L fmt s = d := by
  induction L with
  | nil => rfl
  | cons y t ih =>
    simp only [register_session_listing, List.foldl_cons]
    have hy := h y (List.mem_cons_self _ _)
    have hadd : add_file d y fmt s none = d := by
      unfold add_file
      cases hfy : find_file d y fmt with
      | some q => rfl
      | none => rw [hfy] at hy; cases hy
    rw [hadd]
    exact ih (fun x hx => h x (List.mem_cons_of_mem _ hx))

theorem find_file_delete_self (db : List FileRow) (id : String) (fmt : format_str) :
    find_file (delete_file db id fmt) id fmt = none := by
  induction db with
  | nil => rfl
  | cons a t ih =>
    simp only [delete_file, List.filter_cons]
    by_cases hc : a.id = id ∧ a.format = fmt
    · simpa [hc, delete_file] using ih
    · simpa [hc, find_file, delete_file] using ih

theorem find_file_delete_none {db : List FileRow} {x : String} {g : format_str}
    (h : find_file db x g = none) (id : String) (fmt : format_str) :
    find_file (delete_file db id fmt) x g = none := by
  induction db with
  | nil => rfl
  | cons a t ih =>
    simp only [find_file] at h
    split at h
    · cases h
    · simp only [delete_file, List.filter_cons]
      split
      · simp only [find_file]
        rename_i hcond _
        simpa [delete_file, *] using ih h
      · simpa [delete_file] using ih h

theorem find_file_foldl_delete_none {fmt : format_str} {x : String} :
    ∀ (l : List String) (d : List FileRow), find_file d x fmt = none →
      find_file (l.foldl (fun d2 i => delete_file d2 i fmt) d) x fmt = none := by
  intro l
  induction l with
  | nil => intro d h; exact h
  | cons y t ih =>
    intro d h
    simp only [List.foldl_cons]
    exact ih _ (find_file_delete_none h y fmt)

theorem find_file_foldl_delete_mem {fmt : format_str} {x : String} :
    ∀ (l : List String) (d : List FileRow), x ∈ l →
      find_file (l.foldl (fun d2 i => delete_file d2 i fmt) d) x fmt = none := by
  intro l
  induction l with
  | nil => intro d h; cases h
  | cons y t ih =>
    intro d h
    simp only [List.foldl_cons]
    by_cases hxy : x = y
    · subst hxy
      exact find_file_foldl_delete_none t _ (find_file_delete_self d x fmt)
    · have hx2 : x ∈ t := by
        cases h with
        | head => exact absurd rfl hxy
        | tail _ h2 => exact h2
      exact ih _ hx2

/- ------------------------------------------------------------------ -/
/- Lemmas about download_step and download_documents                   -/
/- ------------------------------------------------------------------ -/

theorem download_step_success_eq (fmt : format_str) (w : World) (st : RunState) (id : String)
    (s : Nat) (db1 : List FileRow)
    (hc : congress_from_id id = some s)
    (hreg : (if s ∈ get_files_congresses st.db (some fmt) then some st.db
             else Option.map (fun l => register_session_listing st.db l fmt s)
               (get_list w s)) = some db1)
    (h0 : file_status (fs_exists w st.writes) db1 id fmt = 0)
    (hok : (w.redirect (link_url fmt s id)).1 = 200) :
    download_step fmt w st id =
      some { db := update_path db1 id fmt (dest_path fmt s id),
             writes := st.writes ++
               [(dest_path fmt s id, (w.content (w.redirect (link_url fmt s id)).2).2)],
             failed := st.failed } := by
  simp only [download_step, hc, hreg, h0, hok]
  simp

theorem download_step_redirect_fail_eq (fmt : format_str) (w : World) (st : RunState)
    (id : String) (s : Nat) (db1 : List FileRow)
    (hc : congress_from_id id = some s)
    (hreg : (if s ∈ get_files_congresses st.db (some fmt) then some st.db
             else Option.map (fun l => register_session_listing st.db l fmt s)
               (get_list w s)) = some db1)
    (hnot1 : file_status (fs_exists w st.writes) db1 id fmt ≠ 1)
    (hbad : (w.redirect (link_url fmt s id)).1 ≠ 200) :
    download_step fmt w st id =
      some { db := if file_status (fs_exists w st.writes) db1 id fmt = 0
                   then update_path db1 id fmt (dest_path fmt s id) else db1,
             writes := st.writes, failed := st.failed ++ [id] } := by
  simp only [download_step, hc, hreg]
  simp only [if_neg hnot1, if_pos hbad]

theorem download_documents_single (fmt : format_str) (w : World) (db0 : List FileRow)
    (id : String) (st1 : RunState)
    (h : download_step fmt w { db := db0, writes := [], failed := [] } id = some st1) :
    download_documents [id] fmt w db0 = some (rollback_failed fmt st1) := by
  unfold download_documents download_loop
  rw [h]
  rfl

theorem rollback_failed_of_nofail (fmt : format_str) (st : RunState) (h : st.failed = []) :
    rollback_failed fmt st = st := by
  cases st with
  | mk d ws fl =>
    cases h
    rfl

/- ------------------------------------------------------------------ -/
/- Lemmas about refresh_paths                                          -/
/- ------------------------------------------------------------------ -/

theorem find_file_self_of_nodup {db : List FileRow} (h : (db.map fileKey).Nodup) :
    ∀ r ∈ db, find_file db r.id r.format = some r := by
  induction db with
  | nil => intro r hr; cases hr
  | cons a t ih =>
    intro r hr
    rw [List.map_cons, List.nodup_cons] at h
    cases hr with
    | head => simp [find_file]
    | tail _ hrt =>
      simp only [find_file]
      split
      · rename_i hcond
        exfalso
        apply h.1
        have hke : fileKey a = fileKey r := by
          unfold fileKey; rw [hcond.1, hcond.2]
        rw [hke]
        exact List.mem_map_of_mem fileKey hrt
      · exact ih h.2 r hrt

theorem file_status_of_none {E : String → Bool} {db : List FileRow} {id : String}
    {fmt : format_str} (h : find_file db id fmt = none) : file_status E db id fmt = 0 := by
  unfold file_status
  rw [h]

theorem file_status_of_some {E : String → Bool} {db : List FileRow} {id : String}
    {fmt : format_str} {r : FileRow} (h : find_file db id fmt = some r) :
    file_status E db id fmt =
      (match r.path with
       | none => 0
       | some p => if E p then 1 else 2) := by
  unfold file_status
  rw [h]

theorem is_lost_of_none {E : String → Bool} {r : FileRow} (h : r.path = none) :
    is_lost E r = false := by
  unfold is_lost
  rw [h]

theorem is_lost_of_some {E : String → Bool} {r : FileRow} {p : String} (h : r.path = some p) :
    is_lost E r = !(E p) := by
  unfold is_lost
  rw [h]

theorem refresh_fold_eq (E : String → Bool) :
    ∀ (l a : List FileRow),
      (l.map fileKey).Nodup →
      (∀ r ∈ l, ∃ q, find_file a r.id r.format = some q ∧ q.path = r.path) →
      l.foldl (fun d r => if file_status E d r.id r.format = 2
                          then clear_path d r.id r.format else d) a
        = a.map (norm_row E l) := by
  intro l
  induction l with
  | nil =>
    intro a _ _
    have hid : norm_row E [] = fun g => g := by
      funext g
      unfold norm_row lost_key
      simp
    rw [List.foldl_nil, hid]
    simp
  | cons r t ih =>
    intro a hnd hag
    rw [List.map_cons, List.nodup_cons] at hnd
    obtain ⟨q, hq, hqp⟩ := hag r (List.mem_cons_self _ _)
    simp only [List.foldl_cons]
    by_cases hl : is_lost E r = true
    · -- the snapshot row is lost: the step clears its key
      obtain ⟨p, hp, hEp⟩ : ∃ p, r.path = some p ∧ E p = false := by
        cases hp : r.path with
        | none => rw [is_lost_of_none hp] at hl; cases hl
        | some p =>
          rw [is_lost_of_some hp] at hl
          exact ⟨p, rfl, by simpa using hl⟩
      have hstat : file_status E a r.id r.format = 2 := by
        rw [file_status_of_some hq, hqp, hp]
        simp [hEp]
      rw [if_pos hstat]
      have hagt : ∀ r2 ∈ t, ∃ q2,
          find_file (clear_path a r.id r.format) r2.id r2.format = some q2 ∧
            q2.path = r2.path := by
        intro r2 hr2
        obtain ⟨q2, hq2, hq2p⟩ := hag r2 (List.mem_cons_of_mem _ hr2)
        have hkey := find_file_some_key hq2
        have hcond : ¬(q2.id = r.id ∧ q2.format = r.format) := by
          intro hcon
          apply hnd.1
          have hke : fileKey r = fileKey r2 := by
            unfold fileKey
            rw [← hkey.1, ← hkey.2, hcon.1, hcon.2]
          rw [hke]
          exact List.mem_map_of_mem fileKey hr2
        refine ⟨q2, ?_, hq2p⟩
        rw [find_file_clear, hq2]
        simp [hcond]
      rw [ih (clear_path a r.id r.format) hnd.2 hagt]
      unfold clear_path
      rw [List.map_map]
      have hpt : ∀ g : FileRow,
          (norm_row E t ∘ fun g2 =>
            if g2.id = r.id ∧ g2.format = r.format then { g2 with path := none } else g2) g
            = norm_row E (r :: t) g := by
        intro g
        cases g with
        | mk gi gf gc gp =>
          simp only [Function.comp]
          by_cases hg : gi = r.id ∧ gf = r.format
          · rw [if_pos hg]
            have hhead : lost_key E (r :: t) gi gf = true := by
              unfold lost_key
              rw [List.any_cons]
              have hdec : decide (r.id = gi ∧ r.format = gf) = true := by
                simp [hg.1, hg.2]
              rw [hdec, hl]
              rfl
            unfold norm_row
            rw [hhead]
            simp only [if_true]
            split <;> rfl
          · rw [if_neg hg]
            unfold norm_row lost_key
            rw [List.any_cons]
            have hdec : decide (r.id = gi ∧ r.format = gf) = false := by
              apply decide_eq_false
              intro hcon
              exact hg ⟨hcon.1.symm, hcon.2.symm⟩
            rw [hdec]
            rfl
      have hcomp : (norm_row E t ∘ fun g2 =>
          if g2.id = r.id ∧ g2.format = r.format then { g2 with path := none } else g2)
            = norm_row E (r :: t) := funext hpt
      rw [hcomp]
    · -- the snapshot row is not lost: the step is a no-op on the accumulator
      have hl0 : is_lost E r = false := by
        cases hb : is_lost E r with
        | false => rfl
        | true => exact absurd hb hl
      have hstat : file_status E a r.id r.format ≠ 2 := by
        rw [file_status_of_some hq, hqp]
        cases hp : r.path with
        | none => simp
        | some p =>
          rw [is_lost_of_some hp] at hl0
          have hEp : E p = true := by simpa using hl0
          simp [hEp]
      rw [if_neg hstat]
      rw [ih a hnd.2 (fun r2 hr2 => hag r2 (List.mem_cons_of_mem _ hr2))]
      have hfun : norm_row E t = norm_row E (r :: t) := by
        funext g
        unfold norm_row lost_key
        rw [List.any_cons, hl0, Bool.and_false, Bool.false_or]
      rw [hfun]

theorem refresh_paths_eq_norm (E : String → Bool) (db : List FileRow)
    (h : (db.map fileKey).Nodup) :
    refresh_paths E db = db.map (norm_row E db) :=
  refresh_fold_eq E db db h (fun r hr => ⟨r, find_file_self_of_nodup h r hr, rfl⟩)

theorem refresh_result_not_lost (E : String → Bool) (db : List FileRow)
    (h : (db.map fileKey).Nodup) :
    ∀ r ∈ refresh_paths E db, is_lost E r = false := by
  rw [refresh_paths_eq_norm E db h]
  intro r hr
  obtain ⟨g, hg, rfl⟩ := List.mem_map.mp hr
  unfold norm_row
  by_cases hk : lost_key E db g.id g.format = true
  · rw [if_pos hk]
    apply is_lost_of_none
    cases g with
    | mk gi gf gc gp => rfl
  · rw [if_neg hk]
    have h2 : ∀ x ∈ db, ¬((decide (x.id = g.id ∧ x.format = g.format) && is_lost E x) = true) := by
      intro x hx hcon
      exact hk (by unfold lost_key; rw [List.any_eq_true]; exact ⟨x, hx, hcon⟩)
    have h3 := h2 g hg
    simpa using h3

theorem refresh_fold_noop (E : String → Bool) (a : List FileRow)
    (h : ∀ q ∈ a, is_lost E q = false) :
    ∀ l : List FileRow,
      l.foldl (fun d r => if file_status E d r.id r.format = 2
                          then clear_path d r.id r.format else d) a = a := by
  intro l
  induction l with
  | nil => rfl
  | cons r t ih =>
    simp only [List.foldl_cons]
    have hstat : file_status E a r.id r.format ≠ 2 := by
      cases hf : find_file a r.id r.format with
      | none => rw [file_status_of_none hf]; simp
      | some q =>
        have hql := h q (find_file_mem hf)
        rw [file_status_of_some hf]
        cases hp : q.path with
        | none => simp
        | some p =>
          rw [is_lost_of_some hp] at hql
          have hEp : E p = true := by simpa using hql
          simp [hEp]
    rw [if_neg hstat]
    exact ih

theorem refresh_paths_noop (E : String → Bool) (d : List FileRow)
    (h : ∀ q ∈ d, is_lost E q = false) : refresh_paths E d = d :=
  refresh_fold_noop E d h d

theorem refresh_paths_keys (E : String → Bool) (db : List FileRow)
    (h : (db.map fileKey).Nodup) :
    (refresh_paths E db).map fileKey = db.map fileKey := by
  rw [refresh_paths_eq_norm E db h, List.map_map]
  have hfun : fileKey ∘ norm_row E db = fileKey := by
    funext g
    simp only [Function.comp]
    unfold norm_row fileKey
    split <;> rfl
  rw [hfun]

/- ------------------------------------------------------------------ -/
/- Lemmas about the selection-expansion loop                           -/
/- ------------------------------------------------------------------ -/

theorem filter_by_congress_of_all_some {docs : List String} {c : Nat}
    (h : ∀ x ∈ docs, (congress_from_id x).isSome) :
    filter_by_congress c docs =
      some (docs.filter (fun x => decide (congress_from_id x = some c))) := by
  induction docs with
  | nil => rfl
  | cons x rest ih =>
    have hx := h x (List.mem_cons_self _ _)
    cases hcx : congress_from_id x with
    | none => rw [hcx] at hx; cases hx
    | some cx =>
      have hrest := ih (fun y hy => h y (List.mem_cons_of_mem _ hy))
      simp only [filter_by_congress, hcx, hrest, List.filter_cons]
      by_cases hc : cx = c
      · simp [hc, hcx]
      · simp [hc, hcx]

theorem filter_by_congress_of_none {docs : List String} {c : Nat} {x : String}
    (hx : x ∈ docs) (h : congress_from_id x = none) :
    filter_by_congress c docs = none := by
  induction docs with
  | nil => cases hx
  | cons y rest ih =>
    cases hxy : congress_from_id y with
    | none => simp [filter_by_congress, hxy]
    | some cy =>
      have hxr : x ∈ rest := by
        cases hx with
        | head => rw [h] at hxy; cases hxy
        | tail _ h2 => exact h2
      simp [filter_by_congress, hxy, ih hxr]

theorem expand_error_of_invalid (curr : Nat) (w : World) :
    ∀ (sels : List String) (sel : String), sel ∈ sels → is_numeric sel = true →
      valid_congress curr (str_to_int sel) = false →
      ∀ calls acc, isError (expand_selections curr w sels calls acc).2 = true := by
  intro sels
  induction sels with
  | nil => intro sel h; cases h
  | cons s t ih =>
    intro sel hmem hnum hval calls acc
    by_cases hss : sel = s
    · subst hss
      simp [expand_selections, hnum, hval, isError]
    · have hmt : sel ∈ t := by
        cases hmem with
        | head => exact absurd rfl hss
        | tail _ h2 => exact h2
      by_cases hns : is_numeric s = true
      · by_cases hvs : valid_congress curr (str_to_int s) = true
        · cases hg : get_list w (str_to_int s) with
          | none => simp [expand_selections, hns, hvs, hg, isError]
          | some docs =>
            cases hfb : filter_by_congress (str_to_int s) docs with
            | none => simp [expand_selections, hns, hvs, hg, hfb, isError]
            | some kept =>
              simp only [expand_selections, hns, hvs, hg, hfb, if_true]
              exact ih sel hmt hnum hval _ _
        · simp [expand_selections, hns, hvs, isError]
      · simp only [expand_selections, hns]
        simp only [Bool.false_eq_true, if_false]
        exact ih sel hmt hnum hval _ _

theorem download_command_isError (curr : Nat) (w : World) (db0 : List FileRow)
    (sels : List String) (fmt : format_str)
    (h : isError (expand_selections curr w sels [] []).2 = true) :
    isError (download_command curr w db0 sels fmt).2 = true := by
  unfold download_command
  cases hres : expand_selections curr w sels [] [] with
  | mk calls e =>
    rw [hres] at h
    cases e with
    | error m => rfl
    | ok targets => simp [isError] at h

/- ------------------------------------------------------------------ -/
/- Claim theorems                                                      -/
/- ------------------------------------------------------------------ -/

/-- Claim C1, counterexample: `file_status` does not distinguish `unknown`
from `pending`.  An empty catalog (no File row for the id) and a catalog
holding a pending row (null path) for the id produce the same return value,
so the two states are not distinct as the claim requires. -/
theorem c1_counterexample :
    find_file [] sampleId format_str.txt = none ∧
    find_file [{ id := sampleId, format := format_str.txt, congress := 105, path := none }]
        sampleId format_str.txt
      = some { id := sampleId, format := format_str.txt, congress := 105, path := none } ∧
    file_status (fun _ => false) [] sampleId format_str.txt
      = file_status (fun _ => false)
          [{ id := sampleId, format := format_str.txt, congress := 105, path := none }]
          sampleId format_str.txt := by
  decide

/-- Claim C1, amended: `file_status` distinguishes only three states, not
four.  It returns 0 both when no File row exists and when the row's path is
null (`unknown` and `pending` are conflated), 1 exactly when the row has a
path that resolves on disk (`present`), and 2 exactly when the row has a
path that does not resolve (`missing`). -/
theorem c1_file_status_three_states (E : String → Bool) (db : List FileRow) (id : String)
    (fmt : format_str) :
    (file_status E db id fmt = 0 ↔
      find_file db id fmt = none ∨ ∃ r, find_file db id fmt = some r ∧ r.path = none) ∧
    (file_status E db id fmt = 1 ↔
      ∃ r p, find_file db id fmt = some r ∧ r.path = some p ∧ E p = true) ∧
    (file_status E db id fmt = 2 ↔
      ∃ r p, find_file db id fmt = some r ∧ r.path = some p ∧ E p = false) := by
  cases hf : find_file db id fmt with
  | none =>
    rw [file_status_of_none hf]
    simp [hf]
  | some r =>
    rw [file_status_of_some hf]
    cases hp : r.path with
    | none => simp [hf, hp]
    | some p =>
      cases hE : E p with
      | true => simp [hf, hp, hE]
      | false => simp [hf, hp, hE]

/-- Claim C6, counterexample: calling the registration operation a second
time with an overlapping (but larger) identifier set does change the File
row count for the (session, format): a first call with `["A"]` leaves one
row, a second call with the overlapping set `["A", "B"]` leaves two. -/
theorem c6_counterexample :
    ("A" ∈ (["A"] : List String)) ∧ ("A" ∈ (["A", "B"] : List String)) ∧
    (register_session_listing [] ["A"] format_str.txt 105).length = 1 ∧
    (register_session_listing (register_session_listing [] ["A"] format_str.txt 105)
        ["A", "B"] format_str.txt 105).length = 2 := by
  decide

/-- Claim C6, amended: registration is idempotent for the SAME identifier
set — repeating a call with the identical set changes nothing at all — and
for any set the rows already present (including their paths) are left
untouched; only identifiers with no existing (id, format) row gain rows. -/
theorem c6_register_idempotent (db : List FileRow) (ids : List String) (fmt : format_str)
    (s : Nat) (x : String) (g : format_str) (r : FileRow)
    (h : find_file db x g = some r) :
    register_session_listing (register_session_listing db ids fmt s) ids fmt s
      = register_session_listing db ids fmt s ∧
    find_file (register_session_listing db ids fmt s) x g = some r := by
  constructor
  · apply register_noop
    intro y hy
    exact register_isSome hy db fmt s
  · exact find_file_register_of_some h ids fmt s

/-- Claim C6, witness: the amended statement at a concrete catalog with one
pre-existing row carrying a path. -/
theorem c6_witness :
    register_session_listing
        (register_session_listing
          [{ id := "A", format := format_str.txt, congress := 105, path := some "p" }]
          ["A", "B"] format_str.txt 105)
        ["A", "B"] format_str.txt 105
      = register_session_listing
          [{ id := "A", format := format_str.txt, congress := 105, path := some "p" }]
          ["A", "B"] format_str.txt 105 ∧
    find_file (register_session_listing
        [{ id := "A", format := format_str.txt, congress := 105, path := some "p" }]
        ["A", "B"] format_str.txt 105) "A" format_str.txt
      = some { id := "A", format := format_str.txt, congress := 105, path := some "p" } := by
  exact c6_register_idempotent _ ["A", "B"] format_str.txt 105 "A" format_str.txt _ (by decide)

/-- Claim C8, counterexample: when no File row exists, `commit_path`
(`update_path`) is a no-op and the immediately following `file_status`
returns 0 (`unknown`) even though the committed path resolves on disk —
neither `present` (1) as the claim requires, nor `missing` (2). -/
theorem c8_counterexample :
    update_path [] sampleId format_str.txt "p" = [] ∧
    ((fun _ => true) : String → Bool) "p" = true ∧
    file_status (fun _ => true) (update_path [] sampleId format_str.txt "p") sampleId
        format_str.txt = 0 ∧
    (0 : Nat) ≠ 1 ∧ (0 : Nat) ≠ 2 := by
  decide

/-- Claim C8, amended: the round-trip holds only for identifiers that
already have a File row: then `commit_path` followed by `file_status`
returns 1 (`present`) iff the path resolves and 2 (`missing`) otherwise;
when no row exists, `commit_path` is a no-op and the status stays 0. -/
theorem c8_commit_status_roundtrip (E : String → Bool) (db : List FileRow) (id : String)
    (fmt : format_str) (p : String) :
    (∀ r, find_file db id fmt = some r →
      file_status E (update_path db id fmt p) id fmt = if E p then 1 else 2) ∧
    (find_file db id fmt = none →
      file_status E (update_path db id fmt p) id fmt = 0) := by
  constructor
  · intro r hr
    have hkey := find_file_some_key hr
    have h2 : find_file (update_path db id fmt p) id fmt = some { r with path := some p } := by
      rw [find_file_update, hr]
      simp [hkey.1, hkey.2]
    rw [file_status_of_some h2]
  · intro hn
    have h2 : find_file (update_path db id fmt p) id fmt = none := by
      rw [find_file_update, hn]
      rfl
    rw [file_status_of_none h2]

/-- Claim C8, witness: the amended statement at a one-row catalog (status
becomes 1 on a resolving path) and at the empty catalog (status stays 0). -/
theorem c8_witness :
    file_status (fun _ => true)
        (update_path [{ id := sampleId, format := format_str.txt, congress := 105, path := none }]
          sampleId format_str.txt "p") sampleId format_str.txt = 1 ∧
    file_status (fun _ => true) (update_path [] sampleId format_str.txt "p") sampleId
        format_str.txt = 0 := by
  constructor
  · have h := (c8_commit_status_roundtrip (fun _ => true)
        [{ id := sampleId, format := format_str.txt, congress := 105, path := none }]
        sampleId format_str.txt "p").1
        { id := sampleId, format := format_str.txt, congress := 105, path := none } (by decide)
    simpa using h
  · exact (c8_commit_status_roundtrip (fun _ => true) [] sampleId format_str.txt "p").2 rfl

/-- Claim C10, confirmed: with a given format but no congress and no
downloaded filter, `get_files` returns every File row of the catalog,
ignoring the format argument; every other argument shape with a given
format filters the result down to rows of that format. -/
theorem c10_get_files_format_quirk (db : List FileRow) (f : format_str) :
    get_files db (some f) none none = db ∧
    (∀ (c : Option Nat) (d : Option Bool), c.isSome ∨ d.isSome →
      ∀ r ∈ get_files db (some f) c d, r.format = f) := by
  have hfmt : ∀ (pred : FileRow → Bool) (r : FileRow),
      r ∈ db.filter (fun x => pred x && decide (x.format = f)) → r.format = f := by
    intro pred r hr
    rw [List.mem_filter] at hr
    have h2 := hr.2
    rw [Bool.and_eq_true] at h2
    exact of_decide_eq_true h2.2
  refine ⟨rfl, ?_⟩
  intro c d hcd r hr
  match c, d with
  | none, none => simp at hcd
  | none, some b =>
    cases b with
    | true => exact hfmt (fun x => x.path.isSome) r hr
    | false => exact hfmt (fun x => x.path.isNone) r hr
  | some c2, none => exact hfmt (fun x => decide (x.congress = c2)) r hr
  | some c2, some b =>
    cases b with
    | true => exact hfmt (fun x => x.path.isSome && decide (x.congress = c2)) r hr
    | false => exact hfmt (fun x => x.path.isNone && decide (x.congress = c2)) r hr

/-- Claim C10, witness: the quirk and the filtering at a concrete one-row
catalog. -/
theorem c10_witness :
    get_files [{ id := sampleId, format := format_str.txt, congress := 105, path := none }]
        (some format_str.txt) none none
      = [{ id := sampleId, format := format_str.txt, congress := 105, path := none }] ∧
    ({ id := sampleId, format := format_str.txt, congress := 105, path := none } : FileRow).format
      = format_str.txt := by
  constructor
  · exact (c10_get_files_format_quirk
      [{ id := sampleId, format := format_str.txt, congress := 105, path := none }]
      format_str.txt).1
  · exact (c10_get_files_format_quirk
      [{ id := sampleId, format := format_str.txt, congress := 105, path := none }]
      format_str.txt).2 (some 105) none (Or.inl rfl)
      { id := sampleId, format := format_str.txt, congress := 105, path := none } (by decide)

/-- Claim C4, confirmed: after a download run completes, every identifier
recorded as failed has no File row for the requested format — the rollback
loop deleted it — so its `file_status` is 0 with no row (the `unknown`
state), not a surviving `pending` or `missing` row. -/
theorem c4_failed_rollback (ids : List String) (fmt : format_str) (w : World)
    (db0 : List FileRow) (st : RunState) (X : String)
    (hrun : download_documents ids fmt w db0 = some st) (hX : X ∈ st.failed) :
    find_file st.db X fmt = none ∧ ∀ E, file_status E st.db X fmt = 0 := by
  unfold download_documents at hrun
  cases hloop : download_loop fmt w { db := db0, writes := [], failed := [] } ids with
  | none => rw [hloop] at hrun; cases hrun
  | some st0 =>
    rw [hloop] at hrun
    simp only [Option.map] at hrun
    have hst : rollback_failed fmt st0 = st := by
      cases hrun
      rfl
    subst hst
    have hXf : X ∈ st0.failed := hX
    have hnone : find_file (st0.failed.foldl (fun d2 i => delete_file d2 i fmt) st0.db) X fmt
        = none := find_file_foldl_delete_mem st0.failed st0.db hXf
    exact ⟨hnone, fun E => file_status_of_none hnone⟩

/-- Claim C4, witness: a concrete run against `wRedirectFail` in which the
fetch of `sampleId` fails; after the run the catalog is empty for it. -/
theorem c4_witness :
    find_file [] sampleId format_str.txt = none ∧
    file_status (fun _ => false) [] sampleId format_str.txt = 0 := by
  have h := c4_failed_rollback [sampleId] format_str.txt wRedirectFail []
      { db := [], writes := [], failed := [sampleId] } sampleId (by decide) (by decide)
  exact ⟨h.1, h.2 (fun _ => false)⟩

/-- Claim C7, confirmed (under the schema's (id, format) primary-key
uniqueness): after one `refresh_paths` pass no row is left in the drift
state (every row whose path did not resolve has been cleared to null), an
immediately following second pass changes nothing, and the pass preserves
the set of rows (their keys) — it only clears paths. -/
theorem c7_reconcile_idempotent (E : String → Bool) (db : List FileRow)
    (h : (db.map fileKey).Nodup) :
    (∀ r ∈ refresh_paths E db, is_lost E r = false) ∧
    refresh_paths E (refresh_paths E db) = refresh_paths E db ∧
    (refresh_paths E db).map fileKey = db.map fileKey := by
  refine ⟨refresh_result_not_lost E db h, ?_, refresh_paths_keys E db h⟩
  exact refresh_paths_noop E _ (refresh_result_not_lost E db h)

/-- Claim C7, witness: a concrete catalog with one drifted row ("gone" does
not resolve) and one intact row ("here" resolves): the pass clears exactly
the drifted path and a second pass is the identity. -/
theorem c7_witness :
    refresh_paths fsHere dbDrift
      = [{ id := "A", format := format_str.txt, congress := 105, path := none },
         { id := "B", format := format_str.txt, congress := 105, path := some "here" }] ∧
    is_lost fsHere { id := "A", format := format_str.txt, congress := 105, path := none }
      = false ∧
    refresh_paths fsHere (refresh_paths fsHere dbDrift) = refresh_paths fsHere dbDrift := by
  have h := c7_reconcile_idempotent fsHere dbDrift (by decide)
  refine ⟨by decide, ?_, h.2.1⟩
  exact h.1 _ (by decide)

/-- Claim C2, confirmed: when a session `s` has no File rows for the
requested format, acquiring the single explicit identifier `id` of that
session registers a pending (null-path) row for every identifier of the
session's listing, and on a successful fetch only `id`'s row gains the
destination path and reports status 1 (`present`) against the
post-run filesystem, while every sibling stays a null-path row with
status 0 (`pending`). -/
theorem c2_unlisted_session_registration (w : World) (fmt : format_str) (s : Nat) (id : String)
    (L : List String) (db0 : List FileRow)
    (hL : get_list w s = some L) (hid : id ∈ L) (hcid : congress_from_id id = some s)
    (hsess : s ∉ get_files_congresses db0 (some fmt))
    (hnew : ∀ x ∈ L, find_file db0 x fmt = none)
    (hok : (w.redirect (link_url fmt s id)).1 = 200) :
    ∀ x ∈ L,
      Option.map (fun st => find_file st.db x fmt) (download_documents [id] fmt w db0)
        = some (some { id := x, format := fmt, congress := s,
                       path := if x = id then some (dest_path fmt s id) else none }) ∧
      Option.map (fun st => file_status (fs_exists w st.writes) st.db x fmt)
          (download_documents [id] fmt w db0)
        = some (if x = id then 1 else 0) := by
  have hfid : find_file (register_session_listing db0 L fmt s) id fmt
      = some { id := id, format := fmt, congress := s, path := none } :=
    find_file_register_mem hid (hnew id hid)
  have hreg2 : (if s ∈ get_files_congresses db0 (some fmt) then some db0
      else Option.map (fun l => register_session_listing db0 l fmt s) (get_list w s))
      = some (register_session_listing db0 L fmt s) := by
    rw [if_neg hsess, hL]
    rfl
  have h0 : file_status (fs_exists w ([] : List (String × List Nat)))
      (register_session_listing db0 L fmt s) id fmt = 0 := by
    rw [file_status_of_some hfid]
  have hstep := download_step_success_eq fmt w { db := db0, writes := [], failed := [] }
      id s (register_session_listing db0 L fmt s) hcid hreg2 h0 hok
  have hdd := download_documents_single fmt w db0 id _ hstep
  rw [rollback_failed_of_nofail fmt _ rfl] at hdd
  intro x hx
  rw [hdd]
  by_cases hxid : x = id
  · subst hxid
    have hfup : find_file (update_path (register_session_listing db0 L fmt s) x fmt
        (dest_path fmt s x)) x fmt
        = some { id := x, format := fmt, congress := s, path := some (dest_path fmt s x) } := by
      rw [find_file_update, hfid]
      simp
    constructor
    · simp only [Option.map, hfup]
      simp
    · simp only [Option.map]
      rw [file_status_of_some hfup]
      simp [fs_exists]
  · have hfx : find_file (register_session_listing db0 L fmt s) x fmt
        = some { id := x, format := fmt, congress := s, path := none } :=
      find_file_register_mem hx (hnew x hx)
    have hfup : find_file (update_path (register_session_listing db0 L fmt s) id fmt
        (dest_path fmt s id)) x fmt
        = some { id := x, format := fmt, congress := s, path := none } := by
      rw [find_file_update, hfx]
      simp [hxid]
    constructor
    · simp only [Option.map, hfup, hxid]
      simp [hxid]
    · simp only [Option.map]
      rw [file_status_of_some hfup]
      simp [hxid]

/-- Claim C2, witness: the scenario at a fresh catalog with the two-id
listing of `wTwo`: the sibling `sampleId2` becomes a pending row with
status 0, the requested `sampleId` becomes present with status 1. -/
theorem c2_witness :
    Option.map (fun st => find_file st.db sampleId2 format_str.txt)
        (download_documents [sampleId] format_str.txt wTwo [])
      = some (some { id := sampleId2, format := format_str.txt, congress := 105, path := none }) ∧
    Option.map (fun st => file_status (fs_exists wTwo st.writes) st.db sampleId2 format_str.txt)
        (download_documents [sampleId] format_str.txt wTwo [])
      = some 0 ∧
    Option.map (fun st => file_status (fs_exists wTwo st.writes) st.db sampleId format_str.txt)
        (download_documents [sampleId] format_str.txt wTwo [])
      = some 1 := by
  have h := c2_unlisted_session_registration wTwo format_str.txt 105 sampleId
      [sampleId, sampleId2] [] (by decide) (by decide) (by decide) (by decide)
      (by decide) (by decide)
  have ha := h sampleId2 (by decide)
  have hb := h sampleId (by decide)
  exact ⟨ha.1.trans (by decide), ha.2.trans (by decide), hb.2.trans (by decide)⟩

/-- Claim C3, counterexample: a non-success (404) response at the
content-retrieval step does NOT mark the identifier as failed and its body
IS written to the destination path — the source never checks the status of
the second request and takes its `.content` unconditionally. -/
theorem c3_counterexample :
    (wContentFail.content "final").1 = 404 ∧
    download_documents [sampleId] format_str.txt wContentFail []
      = some { db := [{ id := sampleId, format := format_str.txt, congress := 105,
                        path := some (dest_path format_str.txt 105 sampleId) }],
               writes := [(dest_path format_str.txt 105 sampleId, [9, 9])],
               failed := [] } := by
  decide

/-- Claim C3, amended: for an identifier that reaches the fetch (status not
1), a non-success response at the redirect-resolution step records it as
failed and writes nothing; when the redirect step succeeds (200), the body
of the content response is written to the destination path regardless of
the content response's status, and the identifier is not recorded as
failed. -/
theorem c3_fetch_failure_handling (fmt : format_str) (w : World) (st : RunState) (id : String)
    (s : Nat) (db1 : List FileRow)
    (hc : congress_from_id id = some s)
    (hreg : (if s ∈ get_files_congresses st.db (some fmt) then some st.db
             else Option.map (fun l => register_session_listing st.db l fmt s)
               (get_list w s)) = some db1)
    (hnot1 : file_status (fs_exists w st.writes) db1 id fmt ≠ 1) :
    ((w.redirect (link_url fmt s id)).1 ≠ 200 →
      download_step fmt w st id =
        some { db := if file_status (fs_exists w st.writes) db1 id fmt = 0
                     then update_path db1 id fmt (dest_path fmt s id) else db1,
               writes := st.writes, failed := st.failed ++ [id] }) ∧
    ((w.redirect (link_url fmt s id)).1 = 200 →
      download_step fmt w st id =
        some { db := if file_status (fs_exists w st.writes) db1 id fmt = 0
                     then update_path db1 id fmt (dest_path fmt s id) else db1,
               writes := st.writes ++
                 [(dest_path fmt s id, (w.content (w.redirect (link_url fmt s id)).2).2)],
               failed := st.failed }) := by
  constructor
  · intro hbad
    exact download_step_redirect_fail_eq fmt w st id s db1 hc hreg hnot1 hbad
  · intro h200
    simp only [download_step, hc, hreg]
    simp only [if_neg hnot1, h200]
    simp

/-- Claim C3, witness: the amended statement at a concrete state where the
redirect-resolution request fails with 500: the identifier is recorded as
failed and nothing is written. -/
theorem c3_witness :
    download_step format_str.txt wRedirectFail { db := [], writes := [], failed := [] } sampleId
      = some { db := [{ id := sampleId, format := format_str.txt, congress := 105,
                        path := some (dest_path format_str.txt 105 sampleId) }],
               writes := [], failed := [sampleId] } := by
  have h := (c3_fetch_failure_handling format_str.txt wRedirectFail
      { db := [], writes := [], failed := [] } sampleId 105
      [{ id := sampleId, format := format_str.txt, congress := 105, path := none }]
      (by decide) (by decide) (by decide)).1 (by decide)
  exact h.trans (by decide)

/-- Claim C5, counterexample: `get_list` returns the server's identifiers
with no session re-validation — a listing for session 105 that answers with
a 106th-Congress identifier is returned as-is — and `download_documents`
registers that mismatched identifier in the catalog under congress 105. -/
theorem c5_counterexample :
    get_list wMismatch 105 = some ["CHRG-106hhrg00001"] ∧
    congress_from_id "CHRG-106hhrg00001" = some 106 ∧
    download_documents [sampleId] format_str.txt wMismatch []
      = some { db := [{ id := "CHRG-106hhrg00001", format := format_str.txt, congress := 105,
                        path := none }],
               writes := [(dest_path format_str.txt 105 sampleId, [7])], failed := [] } ∧
    (106 : Nat) ≠ 105 := by
  decide

/-- Claim C5, amended: the only session re-validation happens in the CLI
download command's expansion of a numeric session selection: when every
listed identifier has a digit run, the expansion keeps exactly the
identifiers whose derived session equals the requested session, so every
identifier produced by that expansion derives to the requested session;
a listed identifier with no digit run makes the expansion abort with an
uncaught ValueError (it is not silently discarded); `get_list` itself
returns unfiltered results and the registration loop of
`download_documents` stores them unfiltered. -/
theorem c5_cli_filtering (curr : Nat) (w : World) (sel : String) (c : Nat)
    (h1 : is_numeric sel = true) (h2 : str_to_int sel = c)
    (h3 : valid_congress curr c = true) (docs : List String)
    (h4 : get_list w c = some docs) :
    ((∀ x ∈ docs, (congress_from_id x).isSome) →
      (expand_selections curr w [sel] [] []).2 =
        Except.ok (docs.filter (fun x => decide (congress_from_id x = some c)))) ∧
    (∀ x ∈ docs.filter (fun x => decide (congress_from_id x = some c)),
      congress_from_id x = some c) ∧
    (∀ x ∈ docs, congress_from_id x = none →
      isError (expand_selections curr w [sel] [] []).2 = true) := by
  refine ⟨?_, ?_, ?_⟩
  · intro hall
    simp [expand_selections, h1, h2, h3, h4, filter_by_congress_of_all_some hall]
  · intro x hx
    rw [List.mem_filter] at hx
    exact of_decide_eq_true hx.2
  · intro x hx hnone
    simp [expand_selections, h1, h2, h3, h4,
      filter_by_congress_of_none hx hnone, isError]

/-- Claim C5, witness: expanding the numeric selection "105" against `wOne`
yields exactly the filtered listing, whose member derives to session 105. -/
theorem c5_witness :
    (expand_selections 119 wOne ["105"] [] []).2 = Except.ok [sampleId] ∧
    congress_from_id sampleId = some 105 := by
  have h := c5_cli_filtering 119 wOne "105" 105 (by decide) (by decide) (by decide)
      [sampleId] (by decide)
  exact ⟨(h.1 (by decide)).trans (by rfl), h.2.1 sampleId (by decide)⟩

/-- Claim C9, counterexample: a download request whose selections are
["105", "300"] (with current congress 119, so 300 is out of range) is
rejected with a fatal validation error, but only AFTER the listing network
call for the earlier valid selection 105 has been issued — not before any
network activity. -/
theorem c9_counterexample :
    (download_command 119 wOne [] ["105", "300"] format_str.txt).1 = [105] ∧
    (download_command 119 wOne [] ["105", "300"] format_str.txt).1 ≠ [] ∧
    isError (download_command 119 wOne [] ["105", "300"] format_str.txt).2 = true := by
  decide

/-- Claim C9, amended: a request containing an out-of-range session number
(including the current in-progress session) always fails with a fatal
validation error and never reaches the catalog-mutating download phase;
the rejection precedes the invalid selection's own listing call, and when
the invalid selection is first in the request it precedes all network
activity — but listing calls for earlier valid selections in the same
request may already have been issued. -/
theorem c9_validation (curr : Nat) (w : World) (sels : List String) (sel : String)
    (h1 : sel ∈ sels) (h2 : is_numeric sel = true)
    (h3 : valid_congress curr (str_to_int sel) = false) :
    (∀ (db0 : List FileRow) (fmt : format_str),
      isError (download_command curr w db0 sels fmt).2 = true) ∧
    (∀ rest, sels = sel :: rest → (expand_selections curr w sels [] []).1 = []) := by
  constructor
  · intro db0 fmt
    exact download_command_isError curr w db0 sels fmt
      (expand_error_of_invalid curr w sels sel h1 h2 h3 [] [])
  · intro rest hr
    subst hr
    simp [expand_selections, h2, h3]

/-- Claim C9, witness: the single invalid selection "300" under current
congress 119 is rejected with no listing call at all. -/
theorem c9_witness :
    isError (download_command 119 wOne [] ["300"] format_str.txt).2 = true ∧
    (expand_selections 119 wOne ["300"] [] []).1 = [] := by
  have h := c9_validation 119 wOne ["300"] "300" (by decide) (by decide) (by decide)
  exact ⟨h.1 [] format_str.txt, h.2 [] rfl⟩
